import Mathlib

/-!
# Simple clock (no seconds) watch face

A shallow embedding of `movement/watch_faces/clock/simple_clock_no_secs_face.c`.
The face state is passed explicitly; the host (display driver, tick animation,
sleep request) is a record holding the animation status and the list of commands
issued so far, in order.
-/

namespace SimpleClockNoSecs

/-! ## Data model -/

/-- Modelled from the spec: the packed date-time union of the watch library
(`watch_date_time`, declared outside this face). `reg` is the 32-bit packed
value; the `unit` view splits it, from the low bits up, into second (6 bits),
minute (6 bits), hour (5 bits), day (5 bits), month (4 bits) and year (6 bits). -/
structure watch_date_time where
  reg : Nat
deriving DecidableEq

namespace watch_date_time

/-- The field `unit.second`. -/
def second (d : watch_date_time) : Nat := d.reg % 64

/-- The field `unit.minute`. -/
def minute (d : watch_date_time) : Nat := (d.reg >>> 6) % 64

/-- The field `unit.hour`. -/
def hour (d : watch_date_time) : Nat := (d.reg >>> 12) % 32

/-- The field `unit.day`. -/
def day (d : watch_date_time) : Nat := (d.reg >>> 17) % 32

/-- The field `unit.month`. -/
def month (d : watch_date_time) : Nat := (d.reg >>> 22) % 16

/-- The field `unit.year`. -/
def year (d : watch_date_time) : Nat := (d.reg >>> 26) % 64

/-- Assignment to the 5-bit field `unit.hour`: the other bits of `reg` are kept. -/
def set_hour (d : watch_date_time) (h : Nat) : watch_date_time :=
  ⟨d.reg - d.hour * 4096 + (h % 32) * 4096⟩

end watch_date_time

/-- Modelled from the spec: the event kinds of the host (`movement_event_type_t`,
declared outside this face). The face names five of them; every other value of
the enumeration is `EVENT_OTHER`. -/
inductive movement_event_type_t where
  | EVENT_ACTIVATE
  | EVENT_TICK
  | EVENT_LOW_ENERGY_UPDATE
  | EVENT_ALARM_BUTTON_UP
  | EVENT_ALARM_LONG_UP
  | EVENT_OTHER (code : Nat)
deriving DecidableEq

/-- Modelled from the spec: an event of the host, `movement_event_t`. -/
structure movement_event_t where
  event_type : movement_event_type_t
  subsecond : Nat
deriving DecidableEq

/-- Modelled from the spec: the two flags of the global settings
(`movement_settings_t`) that the face reads. -/
structure movement_settings_t where
  clock_mode_24h : Bool
  alarm_enabled : Bool
deriving DecidableEq

/-- The face state, `simple_clock_no_secs_state_t` of the header. -/
structure simple_clock_no_secs_state_t where
  previous_date_time : Nat
  show_seconds : Bool
  alarm_enabled : Bool
deriving DecidableEq

/-- Modelled from the spec: the indicators of the display that the face uses. -/
inductive watch_indicator where
  | WATCH_INDICATOR_SIGNAL
  | WATCH_INDICATOR_BELL
  | WATCH_INDICATOR_PM
  | WATCH_INDICATOR_24H
deriving DecidableEq

/-- A call into the host that changes the display or the power state. -/
inductive Cmd where
  | watch_display_character_lp_seconds (c : Char) (pos : Nat)
  | watch_display_string (s : String) (pos : Nat)
  | watch_set_indicator (i : watch_indicator)
  | watch_clear_indicator (i : watch_indicator)
  | watch_set_colon
  | watch_start_tick_animation (duration : Nat)
  | watch_stop_tick_animation
  | movement_force_sleep
deriving DecidableEq

/-- The host as the face sees it: whether the tick animation is running, and the
commands issued so far. -/
structure Host where
  tick_animation_running : Bool
  log : List Cmd
deriving DecidableEq

/-- Modelled from the spec: the collaborators whose results the face reads: the
time source, the weekday abbreviation of a date-time, and the default event
handler of the host (which acts on the host and returns whether the event was
handled). -/
structure Env where
  watch_rtc_get_date_time : watch_date_time
  watch_utility_get_weekday : watch_date_time → String
  movement_default_loop_handler : movement_event_t → movement_settings_t → Host → Bool × Host

/-! ## Host commands -/

/-- Record one command. -/
def Host.issue (host : Host) (c : Cmd) : Host :=
  { host with log := host.log ++ [c] }

/-- Modelled from the spec: starting the tick animation makes it running. -/
def watch_start_tick_animation (duration : Nat) (host : Host) : Host :=
  { tick_animation_running := true,
    log := host.log ++ [Cmd.watch_start_tick_animation duration] }

/-- Modelled from the spec: stopping the tick animation makes it not running. -/
def watch_stop_tick_animation (host : Host) : Host :=
  { tick_animation_running := false,
    log := host.log ++ [Cmd.watch_stop_tick_animation] }

/-! ## Formatting -/

/-- The conversions `%2d` (fill `' '`) and `%02d` (fill `'0'`) of `sprintf` for a
non-negative argument: the decimal digits, padded on the left to width 2. -/
def fmt_width2 (fill : Char) (n : Nat) : String :=
  String.mk (List.replicate (2 - (Nat.repr n).length) fill) ++ Nat.repr n

/-! ## The face -/

/-- The helper `_update_alarm_indicator`. -/
def _update_alarm_indicator (settings_alarm_enabled : Bool)
    (state : simple_clock_no_secs_state_t) (host : Host) :
    simple_clock_no_secs_state_t × Host :=
  let state := { state with alarm_enabled := settings_alarm_enabled }
  if state.alarm_enabled then
    (state, host.issue (Cmd.watch_set_indicator .WATCH_INDICATOR_BELL))
  else
    (state, host.issue (Cmd.watch_clear_indicator .WATCH_INDICATOR_BELL))

/-- The callback `simple_clock_no_secs_face_setup`. The context slot holds no state
(a null pointer) or the face state it points to; the result is the slot afterwards.
On a null slot the state is allocated, zero-filled by `memset`, and then
`show_seconds` is set. -/
def simple_clock_no_secs_face_setup (settings : movement_settings_t) (watch_face_index : Nat)
    (context_ptr : Option simple_clock_no_secs_state_t) :
    Option simple_clock_no_secs_state_t :=
  let _ := settings
  let _ := watch_face_index
  match context_ptr with
  | none =>
    -- only happens at boot
    let state : simple_clock_no_secs_state_t :=
      { previous_date_time := 0, show_seconds := false, alarm_enabled := false }
    some { state with show_seconds := true }
  | some state => some state

/-- The callback `simple_clock_no_secs_face_activate`. -/
def simple_clock_no_secs_face_activate (settings : movement_settings_t)
    (state : simple_clock_no_secs_state_t) (host : Host) :
    simple_clock_no_secs_state_t × Host :=
  let host := if host.tick_animation_running then watch_stop_tick_animation host else host
  let host :=
    if settings.clock_mode_24h then host.issue (Cmd.watch_set_indicator .WATCH_INDICATOR_24H)
    else host
  let (state, host) := _update_alarm_indicator settings.alarm_enabled state host
  let host := host.issue Cmd.watch_set_colon
  ({ state with previous_date_time := 0xFFFFFFFF }, host)

/-- The callback `simple_clock_no_secs_face_loop`: the result, the new face state
and the new host. -/
def simple_clock_no_secs_face_loop (env : Env) (event : movement_event_t)
    (settings : movement_settings_t) (state : simple_clock_no_secs_state_t) (host : Host) :
    Bool × simple_clock_no_secs_state_t × Host :=
  match event.event_type with
  | .EVENT_ACTIVATE | .EVENT_TICK | .EVENT_LOW_ENERGY_UPDATE =>
    -- update display
    let date_time := env.watch_rtc_get_date_time
    let previous_date_time := state.previous_date_time
    let state := { state with previous_date_time := date_time.reg }
    let low_energy : Bool := decide (event.event_type = .EVENT_LOW_ENERGY_UPDATE)
    if (date_time.reg >>> 6) = (previous_date_time >>> 6) ∧ low_energy = false
        ∧ state.show_seconds = true then
      -- everything before seconds is the same
      let host := host.issue
        (Cmd.watch_display_character_lp_seconds (Char.ofNat ('0'.toNat + date_time.second / 10)) 8)
      let host := host.issue
        (Cmd.watch_display_character_lp_seconds (Char.ofNat ('0'.toNat + date_time.second % 10)) 9)
      (true, state, host)
    else
      let (buf, pos, host) : String × Nat × Host :=
        if (date_time.reg >>> 12) = (previous_date_time >>> 12) ∧ low_energy = false
            ∧ state.show_seconds = true then
          -- everything before minutes is the same
          (fmt_width2 '0' date_time.minute ++ fmt_width2 '0' date_time.second, 6, host)
        else if (date_time.reg >>> 12) = (previous_date_time >>> 12)
            ∧ (low_energy = true ∨ state.show_seconds = false) then
          -- everything before minutes is the same, and we are not showing seconds
          (fmt_width2 '0' date_time.minute ++ "  ", 6, host)
        else
          -- other stuff changed; do it all
          let (date_time, host) : watch_date_time × Host :=
            if settings.clock_mode_24h = false then
              let host :=
                if date_time.hour < 12 then
                  host.issue (Cmd.watch_clear_indicator .WATCH_INDICATOR_PM)
                else
                  host.issue (Cmd.watch_set_indicator .WATCH_INDICATOR_PM)
              let date_time := date_time.set_hour (date_time.hour % 12)
              let date_time := if date_time.hour = 0 then date_time.set_hour 12 else date_time
              (date_time, host)
            else (date_time, host)
          if low_energy = true ∨ state.show_seconds = false then
            (env.watch_utility_get_weekday date_time ++ fmt_width2 ' ' date_time.day
              ++ fmt_width2 ' ' date_time.hour ++ fmt_width2 '0' date_time.minute ++ "  ", 0, host)
          else
            (env.watch_utility_get_weekday date_time ++ fmt_width2 ' ' date_time.day
              ++ fmt_width2 ' ' date_time.hour ++ fmt_width2 '0' date_time.minute
              ++ fmt_width2 '0' date_time.second, 0, host)
      -- only show tick animation if we are low energy and want to show seconds
      let host :=
        if low_energy = true ∧ state.show_seconds = true then
          if host.tick_animation_running = false then watch_start_tick_animation 500 host else host
        else
          if host.tick_animation_running then watch_stop_tick_animation host else host
      let host := host.issue (Cmd.watch_display_string buf pos)
      -- update alarm indicator
      let (state, host) :=
        if state.alarm_enabled ≠ settings.alarm_enabled then
          _update_alarm_indicator settings.alarm_enabled state host
        else (state, host)
      -- show signal when asleep
      let host :=
        if low_energy = true then host.issue (Cmd.watch_set_indicator .WATCH_INDICATOR_SIGNAL)
        else host.issue (Cmd.watch_clear_indicator .WATCH_INDICATOR_SIGNAL)
      (true, state, host)
  | .EVENT_ALARM_BUTTON_UP =>
    -- toggle seconds
    let state := { state with show_seconds := !state.show_seconds }
    let date_time := env.watch_rtc_get_date_time
    let buf := if state.show_seconds then fmt_width2 '0' date_time.second else "  "
    let host := host.issue (Cmd.watch_display_string buf 8)
    (true, state, host)
  | .EVENT_ALARM_LONG_UP =>
    -- go to sleep
    (true, state, host.issue Cmd.movement_force_sleep)
  | .EVENT_OTHER _ =>
    let r := env.movement_default_loop_handler event settings host
    (r.1, state, r.2)

/-! ## Vocabulary of the statements -/

/-- The commands issued between two snapshots of the host, oldest first. -/
def issued (before after : Host) : List Cmd :=
  after.log.drop before.log.length

/-- Whether a command writes characters of the display. -/
def Cmd.is_text : Cmd → Bool
  | .watch_display_character_lp_seconds _ _ => true
  | .watch_display_string _ _ => true
  | _ => false

/-- The character writes issued between two snapshots of the host. -/
def text_writes (before after : Host) : List Cmd :=
  (issued before after).filter Cmd.is_text

/-- The hour digits of a full redraw: the hour itself in 24-hour mode, and
otherwise 12 for the hours 0 and 12 and the hour modulo 12 for the others. -/
def shown_hour (settings : movement_settings_t) (h : Nat) : Nat :=
  if settings.clock_mode_24h then h else if h % 12 = 0 then 12 else h % 12

/-! ## Concrete inputs -/

/-- A packed date-time built from its fields. -/
def sample_date_time (year month day hour minute second : Nat) : Nat :=
  second + minute * 2 ^ 6 + hour * 2 ^ 12 + day * 2 ^ 17 + month * 2 ^ 22 + year * 2 ^ 26

/-- Collaborators for concrete evaluations: the time source reads `now`, every
date is a Monday, and the default handler declines the event. -/
def sample_env (now : Nat) : Env :=
  ⟨⟨now⟩, fun _ => "MO", fun _ _ host => (false, host)⟩

/-! ## Fields and formatting -/

theorem digit_char_eq (d : Nat) (h : d < 10) : Char.ofNat (48 + d) = Nat.digitChar d := by
  revert d; decide

theorem second_lt (d : watch_date_time) : d.second < 64 := Nat.mod_lt _ (by decide)
theorem minute_lt (d : watch_date_time) : d.minute < 64 := Nat.mod_lt _ (by decide)
theorem hour_lt (d : watch_date_time) : d.hour < 32 := Nat.mod_lt _ (by decide)
theorem day_lt (d : watch_date_time) : d.day < 32 := Nat.mod_lt _ (by decide)

theorem fmt_width2_zero_length (n : Nat) (h : n < 100) : (fmt_width2 '0' n).length = 2 := by
  revert n; decide

theorem fmt_width2_blank_length (n : Nat) (h : n < 100) : (fmt_width2 ' ' n).length = 2 := by
  revert n; decide

theorem hour_set_hour (d : watch_date_time) (h : Nat) : (d.set_hour h).hour = h % 32 := by
  simp only [watch_date_time.set_hour, watch_date_time.hour, Nat.shiftRight_eq_div_pow]
  norm_num
  omega

theorem second_set_hour (d : watch_date_time) (h : Nat) : (d.set_hour h).second = d.second := by
  simp only [watch_date_time.set_hour, watch_date_time.hour, watch_date_time.second, Nat.shiftRight_eq_div_pow]
  norm_num
  omega

theorem minute_set_hour (d : watch_date_time) (h : Nat) : (d.set_hour h).minute = d.minute := by
  simp only [watch_date_time.set_hour, watch_date_time.hour, watch_date_time.minute, Nat.shiftRight_eq_div_pow]
  norm_num
  omega

theorem upper_set_hour (d : watch_date_time) (h : Nat) : (d.set_hour h).reg >>> 17 = d.reg >>> 17 := by
  simp only [watch_date_time.set_hour, watch_date_time.hour, Nat.shiftRight_eq_div_pow]
  norm_num
  omega

theorem day_set_hour (d : watch_date_time) (h : Nat) : (d.set_hour h).day = d.day := by
  simp only [watch_date_time.day, upper_set_hour]

theorem month_set_hour (d : watch_date_time) (h : Nat) : (d.set_hour h).month = d.month := by
  simp only [watch_date_time.set_hour, watch_date_time.hour, watch_date_time.month,
    Nat.shiftRight_eq_div_pow]
  norm_num
  omega

theorem year_set_hour (d : watch_date_time) (h : Nat) : (d.set_hour h).year = d.year := by
  simp only [watch_date_time.set_hour, watch_date_time.hour, watch_date_time.year,
    Nat.shiftRight_eq_div_pow]
  norm_num
  omega

theorem valid_hour_not_sentinel (d : watch_date_time) (h : d.hour ≤ 23) :
    d.reg >>> 12 ≠ 0xFFFFF := by
  simp only [watch_date_time.hour, Nat.shiftRight_eq_div_pow] at *
  norm_num at *
  omega

theorem set_hour_set_hour (d : watch_date_time) (a b : Nat) :
    (d.set_hour a).set_hour b = d.set_hour b := by
  have := hour_set_hour d a
  simp only [watch_date_time.set_hour, watch_date_time.hour, Nat.shiftRight_eq_div_pow] at *
  norm_num at *
  omega

theorem set_hour_self (d : watch_date_time) : d.set_hour d.hour = d := by
  cases d with
  | mk r =>
  simp only [watch_date_time.set_hour, watch_date_time.hour, Nat.shiftRight_eq_div_pow]
  norm_num
  omega

/-! ## The redraw branches -/

theorem shift12_of_shift6 (a b : Nat) (h : a >>> 6 = b >>> 6) : a >>> 12 = b >>> 12 := by
  simp only [Nat.shiftRight_eq_div_pow] at *
  norm_num at *
  omega

theorem convert_12h (d : watch_date_time) :
    (if (d.set_hour (d.hour % 12)).hour = 0 then (d.set_hour (d.hour % 12)).set_hour 12
      else d.set_hour (d.hour % 12))
      = d.set_hour (if d.hour % 12 = 0 then 12 else d.hour % 12) := by
  have hh := hour_lt d
  have h1 : (d.set_hour (d.hour % 12)).hour = d.hour % 12 := by
    rw [hour_set_hour]; omega
  rw [h1]
  split_ifs
  · exact set_hour_set_hour _ _ _
  · rfl

theorem loop_full_redraw (env : Env) (event : movement_event_t)
    (settings : movement_settings_t) (state : simple_clock_no_secs_state_t) (host : Host)
    (hev : event.event_type = .EVENT_ACTIVATE ∨ event.event_type = .EVENT_TICK
      ∨ event.event_type = .EVENT_LOW_ENERGY_UPDATE)
    (hdiff : env.watch_rtc_get_date_time.reg >>> 12 ≠ state.previous_date_time >>> 12) :
    simple_clock_no_secs_face_loop env event settings state host =
      (true,
       { previous_date_time := env.watch_rtc_get_date_time.reg,
         show_seconds := state.show_seconds,
         alarm_enabled := settings.alarm_enabled },
       { tick_animation_running :=
           decide (event.event_type = .EVENT_LOW_ENERGY_UPDATE) && state.show_seconds,
         log := host.log
           ++ (if settings.clock_mode_24h then []
               else if env.watch_rtc_get_date_time.hour < 12
                 then [Cmd.watch_clear_indicator .WATCH_INDICATOR_PM]
                 else [Cmd.watch_set_indicator .WATCH_INDICATOR_PM])
           ++ (if event.event_type = .EVENT_LOW_ENERGY_UPDATE ∧ state.show_seconds = true
               then (if host.tick_animation_running then []
                     else [Cmd.watch_start_tick_animation 500])
               else (if host.tick_animation_running then [Cmd.watch_stop_tick_animation]
                     else []))
           ++ [Cmd.watch_display_string
                (env.watch_utility_get_weekday
                    (env.watch_rtc_get_date_time.set_hour
                      (shown_hour settings env.watch_rtc_get_date_time.hour))
                  ++ fmt_width2 ' ' env.watch_rtc_get_date_time.day
                  ++ fmt_width2 ' ' (shown_hour settings env.watch_rtc_get_date_time.hour)
                  ++ fmt_width2 '0' env.watch_rtc_get_date_time.minute
                  ++ (if event.event_type = .EVENT_LOW_ENERGY_UPDATE ∨ state.show_seconds = false
                      then "  " else fmt_width2 '0' env.watch_rtc_get_date_time.second)) 0]
           ++ (if state.alarm_enabled = settings.alarm_enabled then []
               else if settings.alarm_enabled
                 then [Cmd.watch_set_indicator .WATCH_INDICATOR_BELL]
                 else [Cmd.watch_clear_indicator .WATCH_INDICATOR_BELL])
           ++ [if event.event_type = .EVENT_LOW_ENERGY_UPDATE
                 then Cmd.watch_set_indicator .WATCH_INDICATOR_SIGNAL
                 else Cmd.watch_clear_indicator .WATCH_INDICATOR_SIGNAL] }) := by
  have h6 : ¬ env.watch_rtc_get_date_time.reg >>> 6 = state.previous_date_time >>> 6 :=
    fun h => hdiff (shift12_of_shift6 _ _ h)
  have hh := hour_lt env.watch_rtc_get_date_time
  have hconv := convert_12h env.watch_rtc_get_date_time
  have hsh : shown_hour settings env.watch_rtc_get_date_time.hour % 32
      = shown_hour settings env.watch_rtc_get_date_time.hour := by
    apply Nat.mod_eq_of_lt
    unfold shown_hour
    split_ifs <;> omega
  obtain ⟨prev, show_seconds, alarm⟩ := state
  obtain ⟨running, log⟩ := host
  obtain ⟨mode24, alarm_setting⟩ := settings
  have hpm : (if mode24 = false then
        ((if (env.watch_rtc_get_date_time.set_hour (env.watch_rtc_get_date_time.hour % 12)).hour = 0
            then (env.watch_rtc_get_date_time.set_hour (env.watch_rtc_get_date_time.hour % 12)).set_hour 12
            else env.watch_rtc_get_date_time.set_hour (env.watch_rtc_get_date_time.hour % 12)),
         (if env.watch_rtc_get_date_time.hour < 12 then
            Host.issue ⟨running, log⟩ (Cmd.watch_clear_indicator .WATCH_INDICATOR_PM)
          else Host.issue ⟨running, log⟩ (Cmd.watch_set_indicator .WATCH_INDICATOR_PM)))
      else (env.watch_rtc_get_date_time, (⟨running, log⟩ : Host)))
      = (env.watch_rtc_get_date_time.set_hour (shown_hour ⟨mode24, alarm_setting⟩ env.watch_rtc_get_date_time.hour),
         (⟨running, log ++ (if mode24 then []
               else if env.watch_rtc_get_date_time.hour < 12
                 then [Cmd.watch_clear_indicator .WATCH_INDICATOR_PM]
                 else [Cmd.watch_set_indicator .WATCH_INDICATOR_PM])⟩ : Host)) := by
    rw [hconv]
    cases mode24
    · by_cases h12 : env.watch_rtc_get_date_time.hour < 12 <;> simp [shown_hour, Host.issue, h12]
    · simp [shown_hour, set_hour_self]
  rcases hev with h | h | h <;>
  · simp only [simple_clock_no_secs_face_loop, h]
    simp only [h6, hdiff, false_and, if_false]
    rw [hpm]
    generalize (if mode24 = true then []
               else if env.watch_rtc_get_date_time.hour < 12
                 then [Cmd.watch_clear_indicator watch_indicator.WATCH_INDICATOR_PM]
                 else [Cmd.watch_set_indicator watch_indicator.WATCH_INDICATOR_PM]) = pm
    cases show_seconds <;> cases running <;> cases alarm <;> cases alarm_setting <;>
      simp [Host.issue, _update_alarm_indicator, watch_start_tick_animation,
        watch_stop_tick_animation, hour_set_hour, day_set_hour, minute_set_hour,
        second_set_hour, hsh]

theorem loop_minute_redraw (env : Env) (event : movement_event_t)
    (settings : movement_settings_t) (state : simple_clock_no_secs_state_t) (host : Host)
    (hev : event.event_type = .EVENT_ACTIVATE ∨ event.event_type = .EVENT_TICK
      ∨ event.event_type = .EVENT_LOW_ENERGY_UPDATE)
    (hsame : env.watch_rtc_get_date_time.reg >>> 12 = state.previous_date_time >>> 12)
    (hslow : ¬ (env.watch_rtc_get_date_time.reg >>> 6 = state.previous_date_time >>> 6
      ∧ event.event_type ≠ .EVENT_LOW_ENERGY_UPDATE ∧ state.show_seconds = true)) :
    simple_clock_no_secs_face_loop env event settings state host =
      (true,
       { previous_date_time := env.watch_rtc_get_date_time.reg,
         show_seconds := state.show_seconds,
         alarm_enabled := settings.alarm_enabled },
       { tick_animation_running :=
           decide (event.event_type = .EVENT_LOW_ENERGY_UPDATE) && state.show_seconds,
         log := host.log
           ++ (if event.event_type = .EVENT_LOW_ENERGY_UPDATE ∧ state.show_seconds = true
               then (if host.tick_animation_running then []
                     else [Cmd.watch_start_tick_animation 500])
               else (if host.tick_animation_running then [Cmd.watch_stop_tick_animation]
                     else []))
           ++ [Cmd.watch_display_string
                (fmt_width2 '0' env.watch_rtc_get_date_time.minute
                  ++ (if event.event_type = .EVENT_LOW_ENERGY_UPDATE ∨ state.show_seconds = false
                      then "  " else fmt_width2 '0' env.watch_rtc_get_date_time.second)) 6]
           ++ (if state.alarm_enabled = settings.alarm_enabled then []
               else if settings.alarm_enabled
                 then [Cmd.watch_set_indicator .WATCH_INDICATOR_BELL]
                 else [Cmd.watch_clear_indicator .WATCH_INDICATOR_BELL])
           ++ [if event.event_type = .EVENT_LOW_ENERGY_UPDATE
                 then Cmd.watch_set_indicator .WATCH_INDICATOR_SIGNAL
                 else Cmd.watch_clear_indicator .WATCH_INDICATOR_SIGNAL] }) := by
  obtain ⟨prev, show_seconds, alarm⟩ := state
  obtain ⟨running, log⟩ := host
  obtain ⟨mode24, alarm_setting⟩ := settings
  simp only at hsame hslow
  rcases hev with h | h | h <;>
  · simp only [h, ne_eq, reduceCtorEq, not_false_eq_true, not_true_eq_false, true_and,
      false_and, and_false, not_and, not_false_eq_true] at hslow
    simp only [simple_clock_no_secs_face_loop, h]
    cases show_seconds <;> cases running <;> cases alarm <;> cases alarm_setting <;>
      simp_all [Host.issue, _update_alarm_indicator, watch_start_tick_animation,
        watch_stop_tick_animation]

theorem loop_seconds_only (env : Env) (event : movement_event_t)
    (settings : movement_settings_t) (state : simple_clock_no_secs_state_t) (host : Host)
    (hev : event.event_type = .EVENT_ACTIVATE ∨ event.event_type = .EVENT_TICK
      ∨ event.event_type = .EVENT_LOW_ENERGY_UPDATE)
    (hfast : env.watch_rtc_get_date_time.reg >>> 6 = state.previous_date_time >>> 6
      ∧ event.event_type ≠ .EVENT_LOW_ENERGY_UPDATE ∧ state.show_seconds = true) :
    simple_clock_no_secs_face_loop env event settings state host =
      (true,
       { previous_date_time := env.watch_rtc_get_date_time.reg,
         show_seconds := state.show_seconds,
         alarm_enabled := state.alarm_enabled },
       { tick_animation_running := host.tick_animation_running,
         log := host.log ++
          [Cmd.watch_display_character_lp_seconds
             (Nat.digitChar (env.watch_rtc_get_date_time.second / 10)) 8,
           Cmd.watch_display_character_lp_seconds
             (Nat.digitChar (env.watch_rtc_get_date_time.second % 10)) 9] }) := by
  obtain ⟨h6, hne, hshow⟩ := hfast
  have hs := second_lt env.watch_rtc_get_date_time
  have h1 := digit_char_eq (env.watch_rtc_get_date_time.second / 10) (by omega)
  have h2 := digit_char_eq (env.watch_rtc_get_date_time.second % 10) (by omega)
  rcases hev with h | h | h
  · simp [simple_clock_no_secs_face_loop, h, hshow, h6, Host.issue, h1, h2]
  · simp [simple_clock_no_secs_face_loop, h, hshow, h6, Host.issue, h1, h2]
  · exact absurd h hne

/-! ## Statement helpers -/

theorem issued_log (host : Host) (running : Bool) (cmds : List Cmd) :
    issued host ⟨running, host.log ++ cmds⟩ = cmds := by
  simp [issued]

theorem activate_state (settings : movement_settings_t) (state : simple_clock_no_secs_state_t)
    (host : Host) :
    (simple_clock_no_secs_face_activate settings state host).1 =
      { previous_date_time := 0xFFFFFFFF,
        show_seconds := state.show_seconds,
        alarm_enabled := settings.alarm_enabled } := by
  obtain ⟨mode24, alarm_setting⟩ := settings
  cases alarm_setting <;>
    simp [simple_clock_no_secs_face_activate, _update_alarm_indicator]

/-! ## Character writes of each branch -/

theorem mem_issued_string (before after : Host) (s : String) (pos : Nat) :
    Cmd.watch_display_string s pos ∈ issued before after
      ↔ Cmd.watch_display_string s pos ∈ text_writes before after := by
  simp [text_writes, List.mem_filter, Cmd.is_text]

theorem mem_issued_character (before after : Host) (c : Char) (pos : Nat) :
    Cmd.watch_display_character_lp_seconds c pos ∈ issued before after
      ↔ Cmd.watch_display_character_lp_seconds c pos ∈ text_writes before after := by
  simp [text_writes, List.mem_filter, Cmd.is_text]

theorem text_writes_seconds_only (env : Env) (event : movement_event_t)
    (settings : movement_settings_t) (state : simple_clock_no_secs_state_t) (host : Host)
    (hev : event.event_type = .EVENT_ACTIVATE ∨ event.event_type = .EVENT_TICK
      ∨ event.event_type = .EVENT_LOW_ENERGY_UPDATE)
    (hfast : env.watch_rtc_get_date_time.reg >>> 6 = state.previous_date_time >>> 6
      ∧ event.event_type ≠ .EVENT_LOW_ENERGY_UPDATE ∧ state.show_seconds = true) :
    text_writes host (simple_clock_no_secs_face_loop env event settings state host).2.2
      = [Cmd.watch_display_character_lp_seconds
           (Nat.digitChar (env.watch_rtc_get_date_time.second / 10)) 8,
         Cmd.watch_display_character_lp_seconds
           (Nat.digitChar (env.watch_rtc_get_date_time.second % 10)) 9] := by
  rw [loop_seconds_only env event settings state host hev hfast]
  simp [text_writes, issued_log, Cmd.is_text]

theorem text_writes_minute_redraw (env : Env) (event : movement_event_t)
    (settings : movement_settings_t) (state : simple_clock_no_secs_state_t) (host : Host)
    (hev : event.event_type = .EVENT_ACTIVATE ∨ event.event_type = .EVENT_TICK
      ∨ event.event_type = .EVENT_LOW_ENERGY_UPDATE)
    (hsame : env.watch_rtc_get_date_time.reg >>> 12 = state.previous_date_time >>> 12)
    (hslow : ¬ (env.watch_rtc_get_date_time.reg >>> 6 = state.previous_date_time >>> 6
      ∧ event.event_type ≠ .EVENT_LOW_ENERGY_UPDATE ∧ state.show_seconds = true)) :
    text_writes host (simple_clock_no_secs_face_loop env event settings state host).2.2
      = [Cmd.watch_display_string
          (fmt_width2 '0' env.watch_rtc_get_date_time.minute
            ++ (if event.event_type = .EVENT_LOW_ENERGY_UPDATE ∨ state.show_seconds = false
                then "  " else fmt_width2 '0' env.watch_rtc_get_date_time.second)) 6] := by
  rw [loop_minute_redraw env event settings state host hev hsame hslow]
  simp only [List.append_assoc, text_writes, issued_log]
  rcases hev with h | h | h <;>
    simp [h, List.filter_append, Cmd.is_text, apply_ite (List.filter _)]

theorem text_writes_full_redraw (env : Env) (event : movement_event_t)
    (settings : movement_settings_t) (state : simple_clock_no_secs_state_t) (host : Host)
    (hev : event.event_type = .EVENT_ACTIVATE ∨ event.event_type = .EVENT_TICK
      ∨ event.event_type = .EVENT_LOW_ENERGY_UPDATE)
    (hdiff : env.watch_rtc_get_date_time.reg >>> 12 ≠ state.previous_date_time >>> 12) :
    text_writes host (simple_clock_no_secs_face_loop env event settings state host).2.2
      = [Cmd.watch_display_string
          (env.watch_utility_get_weekday
              (env.watch_rtc_get_date_time.set_hour
                (shown_hour settings env.watch_rtc_get_date_time.hour))
            ++ fmt_width2 ' ' env.watch_rtc_get_date_time.day
            ++ fmt_width2 ' ' (shown_hour settings env.watch_rtc_get_date_time.hour)
            ++ fmt_width2 '0' env.watch_rtc_get_date_time.minute
            ++ (if event.event_type = .EVENT_LOW_ENERGY_UPDATE ∨ state.show_seconds = false
                then "  " else fmt_width2 '0' env.watch_rtc_get_date_time.second)) 0] := by
  rw [loop_full_redraw env event settings state host hev hdiff]
  simp only [List.append_assoc, text_writes, issued_log]
  rcases hev with h | h | h <;>
    simp [h, List.filter_append, Cmd.is_text, apply_ite (List.filter _)]

theorem loop_short_press (env : Env) (event : movement_event_t)
    (settings : movement_settings_t) (state : simple_clock_no_secs_state_t) (host : Host)
    (hev : event.event_type = .EVENT_ALARM_BUTTON_UP) :
    simple_clock_no_secs_face_loop env event settings state host =
      (true,
       { previous_date_time := state.previous_date_time,
         show_seconds := !state.show_seconds,
         alarm_enabled := state.alarm_enabled },
       { tick_animation_running := host.tick_animation_running,
         log := host.log ++
          [Cmd.watch_display_string
            (if (!state.show_seconds) = true
              then fmt_width2 '0' env.watch_rtc_get_date_time.second else "  ") 8] }) := by
  simp [simple_clock_no_secs_face_loop, hev, Host.issue]

theorem loop_long_press (env : Env) (event : movement_event_t)
    (settings : movement_settings_t) (state : simple_clock_no_secs_state_t) (host : Host)
    (hev : event.event_type = .EVENT_ALARM_LONG_UP) :
    simple_clock_no_secs_face_loop env event settings state host =
      (true, state,
       { tick_animation_running := host.tick_animation_running,
         log := host.log ++ [Cmd.movement_force_sleep] }) := by
  simp [simple_clock_no_secs_face_loop, hev, Host.issue]

theorem head_of_full_redraw_length (env : Env) (settings : movement_settings_t)
    (hwd : ∀ d, (env.watch_utility_get_weekday d).length = 2) :
    (env.watch_utility_get_weekday
        (env.watch_rtc_get_date_time.set_hour
          (shown_hour settings env.watch_rtc_get_date_time.hour))
      ++ fmt_width2 ' ' env.watch_rtc_get_date_time.day
      ++ fmt_width2 ' ' (shown_hour settings env.watch_rtc_get_date_time.hour)
      ++ fmt_width2 '0' env.watch_rtc_get_date_time.minute).length = 8 := by
  have hd := day_lt env.watch_rtc_get_date_time
  have hm := minute_lt env.watch_rtc_get_date_time
  have hh := hour_lt env.watch_rtc_get_date_time
  have hsh : shown_hour settings env.watch_rtc_get_date_time.hour < 100 := by
    unfold shown_hour; split_ifs <;> omega
  have l1 := fmt_width2_blank_length env.watch_rtc_get_date_time.day (by omega)
  have l2 := fmt_width2_blank_length _ hsh
  have l3 := fmt_width2_zero_length env.watch_rtc_get_date_time.minute (by omega)
  simp only [String.length_append, hwd, l1, l2, l3]

theorem seconds_field_length (env : Env) (p : Prop) [Decidable p] :
    (if p then "  " else fmt_width2 '0' env.watch_rtc_get_date_time.second).length = 2 := by
  have hs := second_lt env.watch_rtc_get_date_time
  split_ifs
  · rfl
  · exact fmt_width2_zero_length _ (by omega)

/-! ## The claims -/

/-- C1: on a Tick or Activate event with seconds shown, when the current packed
timestamp agrees with the previous one above the seconds field, the loop returns
true, records the current timestamp, keeps `show_seconds` and `alarm_enabled`,
leaves the tick animation as it was, and issues exactly two commands: the tens
digit of the second at position 8 and its ones digit at position 9. -/
theorem fast_path_writes_two_seconds_digits (env : Env) (event : movement_event_t)
    (settings : movement_settings_t) (state : simple_clock_no_secs_state_t) (host : Host)
    (hev : event.event_type = .EVENT_TICK ∨ event.event_type = .EVENT_ACTIVATE)
    (hshow : state.show_seconds = true)
    (hsame : env.watch_rtc_get_date_time.reg >>> 6 = state.previous_date_time >>> 6) :
    simple_clock_no_secs_face_loop env event settings state host =
      (true,
       { previous_date_time := env.watch_rtc_get_date_time.reg,
         show_seconds := state.show_seconds,
         alarm_enabled := state.alarm_enabled },
       { tick_animation_running := host.tick_animation_running,
         log := host.log ++
          [Cmd.watch_display_character_lp_seconds
             (Nat.digitChar (env.watch_rtc_get_date_time.second / 10)) 8,
           Cmd.watch_display_character_lp_seconds
             (Nat.digitChar (env.watch_rtc_get_date_time.second % 10)) 9] }) := by
  refine loop_seconds_only env event settings state host ?_ ⟨hsame, ?_, hshow⟩
  · rcases hev with h | h
    · exact Or.inr (Or.inl h)
    · exact Or.inl h
  · rcases hev with h | h <;> simp [h]

/-- C1 at a concrete input: 10:41:27 after 10:41:26 on a Tick. -/
theorem fast_path_writes_two_seconds_digits_witness :
    simple_clock_no_secs_face_loop (sample_env (sample_date_time 4 10 30 10 41 27))
        ⟨.EVENT_TICK, 0⟩ ⟨false, true⟩
        ⟨sample_date_time 4 10 30 10 41 26, true, false⟩ ⟨true, []⟩ =
      (true, ⟨sample_date_time 4 10 30 10 41 27, true, false⟩,
        ⟨true, [Cmd.watch_display_character_lp_seconds '2' 8,
                Cmd.watch_display_character_lp_seconds '7' 9]⟩) :=
  fast_path_writes_two_seconds_digits (sample_env (sample_date_time 4 10 30 10 41 27))
    ⟨.EVENT_TICK, 0⟩ ⟨false, true⟩ ⟨sample_date_time 4 10 30 10 41 26, true, false⟩ ⟨true, []⟩
    (by decide) (by decide) (by decide)

/-- C2: after activation, the first Activate, Tick or low-energy event writes
exactly one string, at position 0: weekday, day, hour, minute and the seconds or
two blanks, 10 characters when the weekday has two, for either value of
`show_seconds` and every current date-time the time source returns, whatever its
distance from the previous one: a valid date-time has an hour of at most 23 and so
never agrees with the sentinel above the minute field. -/
theorem first_event_after_activate_full_redraw (env : Env) (event : movement_event_t)
    (settings0 settings : movement_settings_t) (state0 : simple_clock_no_secs_state_t)
    (host0 : Host)
    (hev : event.event_type = .EVENT_ACTIVATE ∨ event.event_type = .EVENT_TICK
      ∨ event.event_type = .EVENT_LOW_ENERGY_UPDATE)
    (hwd : ∀ d, (env.watch_utility_get_weekday d).length = 2)
    (hvalid : env.watch_rtc_get_date_time.hour ≤ 23) :
    text_writes (simple_clock_no_secs_face_activate settings0 state0 host0).2
        (simple_clock_no_secs_face_loop env event settings
          (simple_clock_no_secs_face_activate settings0 state0 host0).1
          (simple_clock_no_secs_face_activate settings0 state0 host0).2).2.2
      = [Cmd.watch_display_string
          (env.watch_utility_get_weekday
              (env.watch_rtc_get_date_time.set_hour
                (shown_hour settings env.watch_rtc_get_date_time.hour))
            ++ fmt_width2 ' ' env.watch_rtc_get_date_time.day
            ++ fmt_width2 ' ' (shown_hour settings env.watch_rtc_get_date_time.hour)
            ++ fmt_width2 '0' env.watch_rtc_get_date_time.minute
            ++ (if event.event_type = .EVENT_LOW_ENERGY_UPDATE ∨ state0.show_seconds = false
                then "  " else fmt_width2 '0' env.watch_rtc_get_date_time.second)) 0]
    ∧ (env.watch_utility_get_weekday
              (env.watch_rtc_get_date_time.set_hour
                (shown_hour settings env.watch_rtc_get_date_time.hour))
            ++ fmt_width2 ' ' env.watch_rtc_get_date_time.day
            ++ fmt_width2 ' ' (shown_hour settings env.watch_rtc_get_date_time.hour)
            ++ fmt_width2 '0' env.watch_rtc_get_date_time.minute
            ++ (if event.event_type = .EVENT_LOW_ENERGY_UPDATE ∨ state0.show_seconds = false
                then "  " else fmt_width2 '0' env.watch_rtc_get_date_time.second)).length = 10 := by
  have hst := activate_state settings0 state0 host0
  have hnow := valid_hour_not_sentinel env.watch_rtc_get_date_time hvalid
  have hdiff : env.watch_rtc_get_date_time.reg >>> 12 ≠
      (simple_clock_no_secs_face_activate settings0 state0 host0).1.previous_date_time >>> 12 := by
    have hsent : (4294967295 : Nat) >>> 12 = 1048575 := by decide
    rw [hst, hsent]; exact hnow
  have hlen : ∀ s : String, s.length = 2 →
      (env.watch_utility_get_weekday
              (env.watch_rtc_get_date_time.set_hour
                (shown_hour settings env.watch_rtc_get_date_time.hour))
            ++ fmt_width2 ' ' env.watch_rtc_get_date_time.day
            ++ fmt_width2 ' ' (shown_hour settings env.watch_rtc_get_date_time.hour)
            ++ fmt_width2 '0' env.watch_rtc_get_date_time.minute ++ s).length = 10 := by
    intro s hs
    have hd := day_lt env.watch_rtc_get_date_time
    have hm := minute_lt env.watch_rtc_get_date_time
    have hh := hour_lt env.watch_rtc_get_date_time
    have hsh : shown_hour settings env.watch_rtc_get_date_time.hour < 100 := by
      unfold shown_hour; split_ifs <;> omega
    have l1 := fmt_width2_blank_length env.watch_rtc_get_date_time.day (by omega)
    have l2 := fmt_width2_blank_length _ hsh
    have l3 := fmt_width2_zero_length env.watch_rtc_get_date_time.minute (by omega)
    simp only [String.length_append, hwd, hs, l1, l2, l3]
  refine ⟨?_, ?_⟩
  · rw [loop_full_redraw env event settings _ _ hev hdiff, hst]
    simp only [List.append_assoc, text_writes, issued_log]
    rcases hev with h | h | h <;>
      simp [h, List.filter_append, Cmd.is_text, apply_ite (List.filter _)]
  · split_ifs
    · exact hlen _ rfl
    · exact hlen _ (fmt_width2_zero_length _
        (by have := second_lt env.watch_rtc_get_date_time; omega))

/-- C2 at a concrete input: the first Tick after activation at 13:05:07 in 12-hour
mode. -/
theorem first_event_after_activate_full_redraw_witness :
    text_writes (simple_clock_no_secs_face_activate ⟨false, true⟩ ⟨0, true, false⟩ ⟨true, []⟩).2
        (simple_clock_no_secs_face_loop (sample_env (sample_date_time 4 10 30 13 5 7))
          ⟨.EVENT_TICK, 0⟩ ⟨false, true⟩
          (simple_clock_no_secs_face_activate ⟨false, true⟩ ⟨0, true, false⟩ ⟨true, []⟩).1
          (simple_clock_no_secs_face_activate ⟨false, true⟩ ⟨0, true, false⟩ ⟨true, []⟩).2).2.2
      = [Cmd.watch_display_string "MO30 10507" 0]
    ∧ "MO30 10507".length = 10 :=
  first_event_after_activate_full_redraw (sample_env (sample_date_time 4 10 30 13 5 7))
    ⟨.EVENT_TICK, 0⟩ ⟨false, true⟩ ⟨false, true⟩ ⟨0, true, false⟩ ⟨true, []⟩
    (by decide) (fun _ => rfl) (by decide)

/-- C3: a full redraw in 12-hour mode shows 12 for the hours 0 and 12 and the hour
modulo 12 for every other hour, a number from 1 to 12, and issues the command
setting the PM indicator exactly when the hour is at least 12 and the command
clearing it exactly when the hour is below 12; in 24-hour mode it shows the hour
unchanged and issues no command on the PM indicator. -/
theorem full_redraw_hour_and_pm (env : Env) (event : movement_event_t)
    (settings : movement_settings_t) (state : simple_clock_no_secs_state_t) (host : Host)
    (hev : event.event_type = .EVENT_ACTIVATE ∨ event.event_type = .EVENT_TICK
      ∨ event.event_type = .EVENT_LOW_ENERGY_UPDATE)
    (hdiff : env.watch_rtc_get_date_time.reg >>> 12 ≠ state.previous_date_time >>> 12) :
    (settings.clock_mode_24h = false →
      text_writes host (simple_clock_no_secs_face_loop env event settings state host).2.2
        = [Cmd.watch_display_string
            (env.watch_utility_get_weekday
                (env.watch_rtc_get_date_time.set_hour
                  (if env.watch_rtc_get_date_time.hour % 12 = 0 then 12
                   else env.watch_rtc_get_date_time.hour % 12))
              ++ fmt_width2 ' ' env.watch_rtc_get_date_time.day
              ++ fmt_width2 ' '
                  (if env.watch_rtc_get_date_time.hour % 12 = 0 then 12
                   else env.watch_rtc_get_date_time.hour % 12)
              ++ fmt_width2 '0' env.watch_rtc_get_date_time.minute
              ++ (if event.event_type = .EVENT_LOW_ENERGY_UPDATE ∨ state.show_seconds = false
                  then "  " else fmt_width2 '0' env.watch_rtc_get_date_time.second)) 0]
      ∧ 1 ≤ (if env.watch_rtc_get_date_time.hour % 12 = 0 then 12
             else env.watch_rtc_get_date_time.hour % 12)
      ∧ (if env.watch_rtc_get_date_time.hour % 12 = 0 then 12
         else env.watch_rtc_get_date_time.hour % 12) ≤ 12
      ∧ (Cmd.watch_set_indicator .WATCH_INDICATOR_PM
            ∈ issued host (simple_clock_no_secs_face_loop env event settings state host).2.2
          ↔ 12 ≤ env.watch_rtc_get_date_time.hour)
      ∧ (Cmd.watch_clear_indicator .WATCH_INDICATOR_PM
            ∈ issued host (simple_clock_no_secs_face_loop env event settings state host).2.2
          ↔ env.watch_rtc_get_date_time.hour < 12))
    ∧ (settings.clock_mode_24h = true →
      text_writes host (simple_clock_no_secs_face_loop env event settings state host).2.2
        = [Cmd.watch_display_string
            (env.watch_utility_get_weekday env.watch_rtc_get_date_time
              ++ fmt_width2 ' ' env.watch_rtc_get_date_time.day
              ++ fmt_width2 ' ' env.watch_rtc_get_date_time.hour
              ++ fmt_width2 '0' env.watch_rtc_get_date_time.minute
              ++ (if event.event_type = .EVENT_LOW_ENERGY_UPDATE ∨ state.show_seconds = false
                  then "  " else fmt_width2 '0' env.watch_rtc_get_date_time.second)) 0]
      ∧ Cmd.watch_set_indicator .WATCH_INDICATOR_PM
          ∉ issued host (simple_clock_no_secs_face_loop env event settings state host).2.2
      ∧ Cmd.watch_clear_indicator .WATCH_INDICATOR_PM
          ∉ issued host (simple_clock_no_secs_face_loop env event settings state host).2.2) := by
  rw [loop_full_redraw env event settings state host hev hdiff]
  simp only [List.append_assoc, text_writes, issued_log]
  constructor
  · intro hmode
    simp only [shown_hour, hmode, Bool.false_eq_true, if_false]
    refine ⟨?_, ?_, ?_, ?_, ?_⟩
    · rcases hev with h | h | h <;>
        simp [h, List.filter_append, Cmd.is_text, apply_ite (List.filter _)]
    · split_ifs <;> omega
    · split_ifs <;> omega
    · by_cases h12 : env.watch_rtc_get_date_time.hour < 12
      · have : ¬ 12 ≤ env.watch_rtc_get_date_time.hour := by omega
        rcases hev with h | h | h <;> simp [h, h12, this] <;> split_ifs <;> simp
      · have : 12 ≤ env.watch_rtc_get_date_time.hour := by omega
        rcases hev with h | h | h <;> simp [h, h12, this]
    · by_cases h12 : env.watch_rtc_get_date_time.hour < 12
      · rcases hev with h | h | h <;> simp [h, h12]
      · rcases hev with h | h | h <;> simp [h, h12] <;> split_ifs <;> simp
  · intro hmode
    simp only [shown_hour, hmode, if_true, set_hour_self]
    refine ⟨?_, ?_, ?_⟩
    · rcases hev with h | h | h <;>
        simp [h, List.filter_append, Cmd.is_text, apply_ite (List.filter _)]
    · rcases hev with h | h | h <;> simp [h] <;> split_ifs <;> simp
    · rcases hev with h | h | h <;> simp [h] <;> split_ifs <;> simp

/-- C3 at concrete inputs, in 12-hour mode: 13:05:07 is shown as hour 1 with the PM
indicator set, and 00:05:07 as hour 12 with the PM indicator cleared. -/
theorem full_redraw_hour_and_pm_witness :
    (text_writes ⟨false, []⟩
        (simple_clock_no_secs_face_loop (sample_env (sample_date_time 4 10 30 13 5 7))
          ⟨.EVENT_TICK, 0⟩ ⟨false, false⟩
          ⟨sample_date_time 4 10 30 12 59 59, true, false⟩ ⟨false, []⟩).2.2
      = [Cmd.watch_display_string "MO30 10507" 0]
    ∧ Cmd.watch_set_indicator .WATCH_INDICATOR_PM
        ∈ issued ⟨false, []⟩
          (simple_clock_no_secs_face_loop (sample_env (sample_date_time 4 10 30 13 5 7))
            ⟨.EVENT_TICK, 0⟩ ⟨false, false⟩
            ⟨sample_date_time 4 10 30 12 59 59, true, false⟩ ⟨false, []⟩).2.2)
    ∧ (text_writes ⟨false, []⟩
        (simple_clock_no_secs_face_loop (sample_env (sample_date_time 4 10 30 0 5 7))
          ⟨.EVENT_TICK, 0⟩ ⟨false, false⟩
          ⟨sample_date_time 4 10 29 23 59 59, true, false⟩ ⟨false, []⟩).2.2
      = [Cmd.watch_display_string "MO30120507" 0]
    ∧ Cmd.watch_clear_indicator .WATCH_INDICATOR_PM
        ∈ issued ⟨false, []⟩
          (simple_clock_no_secs_face_loop (sample_env (sample_date_time 4 10 30 0 5 7))
            ⟨.EVENT_TICK, 0⟩ ⟨false, false⟩
            ⟨sample_date_time 4 10 29 23 59 59, true, false⟩ ⟨false, []⟩).2.2) :=
  have h13 := (full_redraw_hour_and_pm (sample_env (sample_date_time 4 10 30 13 5 7))
    ⟨.EVENT_TICK, 0⟩ ⟨false, false⟩ ⟨sample_date_time 4 10 30 12 59 59, true, false⟩
    ⟨false, []⟩ (by decide) (by decide)).1 rfl
  have h0 := (full_redraw_hour_and_pm (sample_env (sample_date_time 4 10 30 0 5 7))
    ⟨.EVENT_TICK, 0⟩ ⟨false, false⟩ ⟨sample_date_time 4 10 29 23 59 59, true, false⟩
    ⟨false, []⟩ (by decide) (by decide)).1 rfl
  ⟨⟨h13.1, h13.2.2.2.1.2 (by decide)⟩, ⟨h0.1, h0.2.2.2.2.2 (by decide)⟩⟩

/-- C4: on ALARM_BUTTON_UP the loop returns true, flips `show_seconds`, keeps
`previous_date_time` and `alarm_enabled`, leaves the tick animation as it was, and
issues exactly one command: a write at position 8 of two characters, the
zero-padded current second when seconds are now shown and two blanks when not. -/
theorem short_press_toggles_seconds (env : Env) (event : movement_event_t)
    (settings : movement_settings_t) (state : simple_clock_no_secs_state_t) (host : Host)
    (hev : event.event_type = .EVENT_ALARM_BUTTON_UP) :
    simple_clock_no_secs_face_loop env event settings state host =
      (true,
       { previous_date_time := state.previous_date_time,
         show_seconds := !state.show_seconds,
         alarm_enabled := state.alarm_enabled },
       { tick_animation_running := host.tick_animation_running,
         log := host.log ++
          [Cmd.watch_display_string
            (if (!state.show_seconds) = true
              then fmt_width2 '0' env.watch_rtc_get_date_time.second else "  ") 8] })
    ∧ (if (!state.show_seconds) = true
        then fmt_width2 '0' env.watch_rtc_get_date_time.second else "  ").length = 2 := by
  constructor
  · simp [simple_clock_no_secs_face_loop, hev, Host.issue]
  · have hs := second_lt env.watch_rtc_get_date_time
    split_ifs
    · exact fmt_width2_zero_length _ (by omega)
    · rfl

/-- C4 at concrete inputs: a short press at second 7 with seconds hidden shows
"07", and with seconds shown blanks them. -/
theorem short_press_toggles_seconds_witness :
    simple_clock_no_secs_face_loop (sample_env (sample_date_time 4 10 30 13 5 7))
        ⟨.EVENT_ALARM_BUTTON_UP, 0⟩ ⟨false, false⟩ ⟨99, false, true⟩ ⟨false, []⟩
      = (true, ⟨99, true, true⟩, ⟨false, [Cmd.watch_display_string "07" 8]⟩)
    ∧ simple_clock_no_secs_face_loop (sample_env (sample_date_time 4 10 30 13 5 7))
        ⟨.EVENT_ALARM_BUTTON_UP, 0⟩ ⟨false, false⟩ ⟨99, true, true⟩ ⟨false, []⟩
      = (true, ⟨99, false, true⟩, ⟨false, [Cmd.watch_display_string "  " 8]⟩) :=
  ⟨(short_press_toggles_seconds (sample_env (sample_date_time 4 10 30 13 5 7))
      ⟨.EVENT_ALARM_BUTTON_UP, 0⟩ ⟨false, false⟩ ⟨99, false, true⟩ ⟨false, []⟩ (by decide)).1,
   (short_press_toggles_seconds (sample_env (sample_date_time 4 10 30 13 5 7))
      ⟨.EVENT_ALARM_BUTTON_UP, 0⟩ ⟨false, false⟩ ⟨99, true, true⟩ ⟨false, []⟩ (by decide)).1⟩

/-- C5: on ALARM_LONG_UP the loop returns true, leaves every field of the face
state and the tick animation unchanged, and issues exactly one command, the
request to force sleep. -/
theorem long_press_only_requests_sleep (env : Env) (event : movement_event_t)
    (settings : movement_settings_t) (state : simple_clock_no_secs_state_t) (host : Host)
    (hev : event.event_type = .EVENT_ALARM_LONG_UP) :
    simple_clock_no_secs_face_loop env event settings state host =
      (true, state,
       { tick_animation_running := host.tick_animation_running,
         log := host.log ++ [Cmd.movement_force_sleep] }) := by
  simp [simple_clock_no_secs_face_loop, hev, Host.issue]

/-- C5 at a concrete input. -/
theorem long_press_only_requests_sleep_witness :
    simple_clock_no_secs_face_loop (sample_env (sample_date_time 4 10 30 13 5 7))
        ⟨.EVENT_ALARM_LONG_UP, 0⟩ ⟨false, true⟩ ⟨99, true, false⟩ ⟨true, []⟩
      = (true, ⟨99, true, false⟩, ⟨true, [Cmd.movement_force_sleep]⟩) :=
  long_press_only_requests_sleep (sample_env (sample_date_time 4 10 30 13 5 7))
    ⟨.EVENT_ALARM_LONG_UP, 0⟩ ⟨false, true⟩ ⟨99, true, false⟩ ⟨true, []⟩ (by decide)

/-- C6: when the current packed timestamp differs from the previous one above the
minute field, every Activate, Tick or low-energy event writes exactly one string,
at position 0: the weekday abbreviation of a date-time with the year, month and
day of the current one, then the day, the shown hour and the minute, then the
two-digit second when the event is not a low-energy update and seconds are shown,
and two blanks otherwise. -/
theorem rollover_full_redraw (env : Env) (event : movement_event_t)
    (settings : movement_settings_t) (state : simple_clock_no_secs_state_t) (host : Host)
    (hev : event.event_type = .EVENT_ACTIVATE ∨ event.event_type = .EVENT_TICK
      ∨ event.event_type = .EVENT_LOW_ENERGY_UPDATE)
    (hdiff : env.watch_rtc_get_date_time.reg >>> 12 ≠ state.previous_date_time >>> 12) :
    text_writes host (simple_clock_no_secs_face_loop env event settings state host).2.2
      = [Cmd.watch_display_string
          (env.watch_utility_get_weekday
              (env.watch_rtc_get_date_time.set_hour
                (shown_hour settings env.watch_rtc_get_date_time.hour))
            ++ fmt_width2 ' ' env.watch_rtc_get_date_time.day
            ++ fmt_width2 ' ' (shown_hour settings env.watch_rtc_get_date_time.hour)
            ++ fmt_width2 '0' env.watch_rtc_get_date_time.minute
            ++ (if event.event_type ≠ .EVENT_LOW_ENERGY_UPDATE ∧ state.show_seconds = true
                then fmt_width2 '0' env.watch_rtc_get_date_time.second else "  ")) 0]
    ∧ (env.watch_rtc_get_date_time.set_hour
          (shown_hour settings env.watch_rtc_get_date_time.hour)).year
        = env.watch_rtc_get_date_time.year
    ∧ (env.watch_rtc_get_date_time.set_hour
          (shown_hour settings env.watch_rtc_get_date_time.hour)).month
        = env.watch_rtc_get_date_time.month
    ∧ (env.watch_rtc_get_date_time.set_hour
          (shown_hour settings env.watch_rtc_get_date_time.hour)).day
        = env.watch_rtc_get_date_time.day := by
  refine ⟨?_, year_set_hour _ _, month_set_hour _ _, day_set_hour _ _⟩
  rw [loop_full_redraw env event settings state host hev hdiff]
  simp only [List.append_assoc, text_writes, issued_log]
  rcases hev with h | h | h <;> cases hs : state.show_seconds <;>
    simp [h, hs, List.filter_append, Cmd.is_text, apply_ite (List.filter _)]

/-- C6 at the day boundary: previous day 1 23:59:59, current day 2 00:00:00, in
24-hour mode on a Tick. -/
theorem rollover_full_redraw_witness :
    text_writes ⟨false, []⟩
        (simple_clock_no_secs_face_loop (sample_env (sample_date_time 4 10 2 0 0 0))
          ⟨.EVENT_TICK, 0⟩ ⟨true, false⟩
          ⟨sample_date_time 4 10 1 23 59 59, true, false⟩ ⟨false, []⟩).2.2
      = [Cmd.watch_display_string "MO 2 00000" 0] :=
  (rollover_full_redraw (sample_env (sample_date_time 4 10 2 0 0 0))
    ⟨.EVENT_TICK, 0⟩ ⟨true, false⟩ ⟨sample_date_time 4 10 1 23 59 59, true, false⟩
    ⟨false, []⟩ (by decide) (by decide)).1

/-- C7, as stated, fails: on a Tick that takes the seconds-only path the tick
animation, running before, is still running afterwards although the event is not
a low-energy update. -/
theorem fast_path_keeps_tick_animation_running :
    movement_event_type_t.EVENT_TICK ≠ movement_event_type_t.EVENT_LOW_ENERGY_UPDATE
    ∧ (simple_clock_no_secs_face_loop (sample_env (sample_date_time 4 10 30 10 41 27))
        ⟨.EVENT_TICK, 0⟩ ⟨false, false⟩
        ⟨sample_date_time 4 10 30 10 41 26, true, false⟩ ⟨true, []⟩).2.2.tick_animation_running
      = true := by
  decide

/-- C7, amended: an Activate, Tick or low-energy event that does not take the
seconds-only path leaves the tick animation running exactly when the event is a
low-energy update and seconds are shown; the start command is issued exactly when
that holds and the animation was not running, the stop command exactly when it
does not hold and the animation was running. On the seconds-only path the
animation status is kept and neither command is issued. -/
theorem tick_animation_after_time_event (env : Env) (event : movement_event_t)
    (settings : movement_settings_t) (state : simple_clock_no_secs_state_t) (host : Host)
    (hev : event.event_type = .EVENT_ACTIVATE ∨ event.event_type = .EVENT_TICK
      ∨ event.event_type = .EVENT_LOW_ENERGY_UPDATE) :
    (¬ (env.watch_rtc_get_date_time.reg >>> 6 = state.previous_date_time >>> 6
          ∧ event.event_type ≠ .EVENT_LOW_ENERGY_UPDATE ∧ state.show_seconds = true) →
      ((simple_clock_no_secs_face_loop env event settings state host).2.2.tick_animation_running
          = true
        ↔ event.event_type = .EVENT_LOW_ENERGY_UPDATE ∧ state.show_seconds = true)
      ∧ (Cmd.watch_start_tick_animation 500
            ∈ issued host (simple_clock_no_secs_face_loop env event settings state host).2.2
          ↔ (event.event_type = .EVENT_LOW_ENERGY_UPDATE ∧ state.show_seconds = true)
            ∧ host.tick_animation_running = false)
      ∧ (Cmd.watch_stop_tick_animation
            ∈ issued host (simple_clock_no_secs_face_loop env event settings state host).2.2
          ↔ ¬ (event.event_type = .EVENT_LOW_ENERGY_UPDATE ∧ state.show_seconds = true)
            ∧ host.tick_animation_running = true))
    ∧ ((env.watch_rtc_get_date_time.reg >>> 6 = state.previous_date_time >>> 6
          ∧ event.event_type ≠ .EVENT_LOW_ENERGY_UPDATE ∧ state.show_seconds = true) →
      (simple_clock_no_secs_face_loop env event settings state host).2.2.tick_animation_running
          = host.tick_animation_running
      ∧ ∀ c ∈ issued host (simple_clock_no_secs_face_loop env event settings state host).2.2,
          c ≠ Cmd.watch_stop_tick_animation ∧ ∀ d, c ≠ Cmd.watch_start_tick_animation d) := by
  constructor
  · intro hslow
    by_cases h12 : env.watch_rtc_get_date_time.reg >>> 12 = state.previous_date_time >>> 12
    · rw [loop_minute_redraw env event settings state host hev h12 hslow]
      simp only [List.append_assoc, issued_log]
      rcases hev with h | h | h <;> cases hs : state.show_seconds <;>
        cases hr : host.tick_animation_running <;>
        simp [h] <;> split_ifs <;> simp
    · rw [loop_full_redraw env event settings state host hev h12]
      simp only [List.append_assoc, issued_log]
      rcases hev with h | h | h <;> cases hs : state.show_seconds <;>
        cases hr : host.tick_animation_running <;>
        simp [h] <;> split_ifs <;> simp
  · intro hfast
    rw [loop_seconds_only env event settings state host hev hfast]
    simp [issued_log]

/-- C7 (amended) at concrete inputs: a low-energy update with seconds shown starts
the animation; a Tick on the seconds-only path leaves a running animation alone. -/
theorem tick_animation_after_time_event_witness :
    (simple_clock_no_secs_face_loop (sample_env (sample_date_time 4 10 30 10 42 0))
        ⟨.EVENT_LOW_ENERGY_UPDATE, 0⟩ ⟨false, false⟩
        ⟨sample_date_time 4 10 30 10 41 0, true, false⟩ ⟨false, []⟩).2.2.tick_animation_running
      = true
    ∧ (simple_clock_no_secs_face_loop (sample_env (sample_date_time 4 10 30 10 41 27))
        ⟨.EVENT_TICK, 0⟩ ⟨false, false⟩
        ⟨sample_date_time 4 10 30 10 41 26, true, false⟩ ⟨true, []⟩).2.2.tick_animation_running
      = true :=
  ⟨((tick_animation_after_time_event (sample_env (sample_date_time 4 10 30 10 42 0))
      ⟨.EVENT_LOW_ENERGY_UPDATE, 0⟩ ⟨false, false⟩
      ⟨sample_date_time 4 10 30 10 41 0, true, false⟩ ⟨false, []⟩
      (by decide)).1 (by decide)).1.2 (by decide),
   ((tick_animation_after_time_event (sample_env (sample_date_time 4 10 30 10 41 27))
      ⟨.EVENT_TICK, 0⟩ ⟨false, false⟩
      ⟨sample_date_time 4 10 30 10 41 26, true, false⟩ ⟨true, []⟩
      (by decide)).2 (by decide)).1⟩

/-- C8, as stated, fails: on a Tick that takes the seconds-only path the cached
`alarm_enabled` stays false while the live setting is true, and no command on the
bell indicator is issued. -/
theorem fast_path_skips_alarm_refresh :
    simple_clock_no_secs_face_loop (sample_env (sample_date_time 4 10 30 10 41 27))
        ⟨.EVENT_TICK, 0⟩ ⟨false, true⟩
        ⟨sample_date_time 4 10 30 10 41 26, true, false⟩ ⟨false, []⟩
      = (true, ⟨sample_date_time 4 10 30 10 41 27, true, false⟩,
          ⟨false, [Cmd.watch_display_character_lp_seconds '2' 8,
                   Cmd.watch_display_character_lp_seconds '7' 9]⟩) := by
  decide

/-- C8, amended: after an Activate, Tick or low-energy event that does not take the
seconds-only path, the cached `alarm_enabled` equals the live setting; when the two
differed before, the bell indicator is set (setting true) or cleared (setting
false), and when they agreed no command on the bell indicator is issued. On the
seconds-only path the cached flag is kept and no such command is issued. -/
theorem alarm_indicator_refresh (env : Env) (event : movement_event_t)
    (settings : movement_settings_t) (state : simple_clock_no_secs_state_t) (host : Host)
    (hev : event.event_type = .EVENT_ACTIVATE ∨ event.event_type = .EVENT_TICK
      ∨ event.event_type = .EVENT_LOW_ENERGY_UPDATE) :
    (¬ (env.watch_rtc_get_date_time.reg >>> 6 = state.previous_date_time >>> 6
          ∧ event.event_type ≠ .EVENT_LOW_ENERGY_UPDATE ∧ state.show_seconds = true) →
      (simple_clock_no_secs_face_loop env event settings state host).2.1.alarm_enabled
          = settings.alarm_enabled
      ∧ (Cmd.watch_set_indicator .WATCH_INDICATOR_BELL
            ∈ issued host (simple_clock_no_secs_face_loop env event settings state host).2.2
          ↔ state.alarm_enabled ≠ settings.alarm_enabled ∧ settings.alarm_enabled = true)
      ∧ (Cmd.watch_clear_indicator .WATCH_INDICATOR_BELL
            ∈ issued host (simple_clock_no_secs_face_loop env event settings state host).2.2
          ↔ state.alarm_enabled ≠ settings.alarm_enabled ∧ settings.alarm_enabled = false))
    ∧ ((env.watch_rtc_get_date_time.reg >>> 6 = state.previous_date_time >>> 6
          ∧ event.event_type ≠ .EVENT_LOW_ENERGY_UPDATE ∧ state.show_seconds = true) →
      (simple_clock_no_secs_face_loop env event settings state host).2.1.alarm_enabled
          = state.alarm_enabled
      ∧ Cmd.watch_set_indicator .WATCH_INDICATOR_BELL
          ∉ issued host (simple_clock_no_secs_face_loop env event settings state host).2.2
      ∧ Cmd.watch_clear_indicator .WATCH_INDICATOR_BELL
          ∉ issued host (simple_clock_no_secs_face_loop env event settings state host).2.2) := by
  constructor
  · intro hslow
    by_cases h12 : env.watch_rtc_get_date_time.reg >>> 12 = state.previous_date_time >>> 12
    · rw [loop_minute_redraw env event settings state host hev h12 hslow]
      simp only [List.append_assoc, issued_log]
      rcases hev with h | h | h <;> cases ha : state.alarm_enabled <;>
        cases hs : settings.alarm_enabled <;>
        simp [h] <;> split_ifs <;> simp
    · rw [loop_full_redraw env event settings state host hev h12]
      simp only [List.append_assoc, issued_log]
      rcases hev with h | h | h <;> cases ha : state.alarm_enabled <;>
        cases hs : settings.alarm_enabled <;>
        simp [h] <;> split_ifs <;> simp
  · intro hfast
    rw [loop_seconds_only env event settings state host hev hfast]
    simp [issued_log]

/-- C8 (amended) at a concrete input: a minute rollover with the alarm newly
enabled caches the setting and sets the bell indicator. -/
theorem alarm_indicator_refresh_witness :
    (simple_clock_no_secs_face_loop (sample_env (sample_date_time 4 10 30 10 42 0))
        ⟨.EVENT_TICK, 0⟩ ⟨false, true⟩
        ⟨sample_date_time 4 10 30 10 41 59, true, false⟩ ⟨false, []⟩).2.1.alarm_enabled = true
    ∧ Cmd.watch_set_indicator .WATCH_INDICATOR_BELL
        ∈ issued ⟨false, []⟩
          (simple_clock_no_secs_face_loop (sample_env (sample_date_time 4 10 30 10 42 0))
            ⟨.EVENT_TICK, 0⟩ ⟨false, true⟩
            ⟨sample_date_time 4 10 30 10 41 59, true, false⟩ ⟨false, []⟩).2.2 :=
  have h := (alarm_indicator_refresh (sample_env (sample_date_time 4 10 30 10 42 0))
    ⟨.EVENT_TICK, 0⟩ ⟨false, true⟩ ⟨sample_date_time 4 10 30 10 41 59, true, false⟩
    ⟨false, []⟩ (by decide)).1 (by decide)
  ⟨h.1, h.2.1.2 (by decide)⟩

/-- C9, as stated, fails: on a Tick that takes the seconds-only path, with the
signal indicator set by an earlier low-energy update, no command on the signal
indicator is issued, so it is not cleared although the event is not a low-energy
update. -/
theorem fast_path_leaves_signal_indicator :
    (simple_clock_no_secs_face_loop (sample_env (sample_date_time 4 10 30 10 41 27))
        ⟨.EVENT_TICK, 0⟩ ⟨false, false⟩
        ⟨sample_date_time 4 10 30 10 41 26, true, false⟩
        ⟨false, [Cmd.watch_set_indicator .WATCH_INDICATOR_SIGNAL]⟩).2.2.log
      = [Cmd.watch_set_indicator .WATCH_INDICATOR_SIGNAL,
         Cmd.watch_display_character_lp_seconds '2' 8,
         Cmd.watch_display_character_lp_seconds '7' 9] := by
  decide

/-- C9, amended: among the commands of an Activate, Tick or low-energy event, the
one setting the signal indicator is issued exactly when the event is a low-energy
update, and the one clearing it exactly when the event is not a low-energy update
and does not take the seconds-only path (on which the signal indicator is not
touched). -/
theorem signal_indicator_after_time_event (env : Env) (event : movement_event_t)
    (settings : movement_settings_t) (state : simple_clock_no_secs_state_t) (host : Host)
    (hev : event.event_type = .EVENT_ACTIVATE ∨ event.event_type = .EVENT_TICK
      ∨ event.event_type = .EVENT_LOW_ENERGY_UPDATE) :
    (Cmd.watch_set_indicator .WATCH_INDICATOR_SIGNAL
        ∈ issued host (simple_clock_no_secs_face_loop env event settings state host).2.2
      ↔ event.event_type = .EVENT_LOW_ENERGY_UPDATE)
    ∧ (Cmd.watch_clear_indicator .WATCH_INDICATOR_SIGNAL
        ∈ issued host (simple_clock_no_secs_face_loop env event settings state host).2.2
      ↔ event.event_type ≠ .EVENT_LOW_ENERGY_UPDATE
        ∧ ¬ (env.watch_rtc_get_date_time.reg >>> 6 = state.previous_date_time >>> 6
              ∧ event.event_type ≠ .EVENT_LOW_ENERGY_UPDATE ∧ state.show_seconds = true)) := by
  by_cases hfast : env.watch_rtc_get_date_time.reg >>> 6 = state.previous_date_time >>> 6
      ∧ event.event_type ≠ .EVENT_LOW_ENERGY_UPDATE ∧ state.show_seconds = true
  · rw [loop_seconds_only env event settings state host hev hfast]
    simp only [issued_log]
    obtain ⟨h6, hne, hshow⟩ := hfast
    simp [hne, h6, hshow]
  · by_cases h12 : env.watch_rtc_get_date_time.reg >>> 12 = state.previous_date_time >>> 12
    · rw [loop_minute_redraw env event settings state host hev h12 hfast]
      simp only [List.append_assoc, issued_log]
      rcases hev with h | h | h <;> simp [h] at hfast ⊢ <;> split_ifs <;> simp_all
    · rw [loop_full_redraw env event settings state host hev h12]
      simp only [List.append_assoc, issued_log]
      rcases hev with h | h | h <;> simp [h] at hfast ⊢ <;> split_ifs <;> simp_all

/-- C9 (amended) at concrete inputs: a low-energy update sets the signal indicator
and a Tick at a minute rollover clears it. -/
theorem signal_indicator_after_time_event_witness :
    Cmd.watch_set_indicator .WATCH_INDICATOR_SIGNAL
        ∈ issued ⟨false, []⟩
          (simple_clock_no_secs_face_loop (sample_env (sample_date_time 4 10 30 10 42 0))
            ⟨.EVENT_LOW_ENERGY_UPDATE, 0⟩ ⟨false, false⟩
            ⟨sample_date_time 4 10 30 10 41 0, true, false⟩ ⟨false, []⟩).2.2
    ∧ Cmd.watch_clear_indicator .WATCH_INDICATOR_SIGNAL
        ∈ issued ⟨false, []⟩
          (simple_clock_no_secs_face_loop (sample_env (sample_date_time 4 10 30 10 42 0))
            ⟨.EVENT_TICK, 0⟩ ⟨false, false⟩
            ⟨sample_date_time 4 10 30 10 41 59, true, false⟩ ⟨false, []⟩).2.2 :=
  ⟨(signal_indicator_after_time_event (sample_env (sample_date_time 4 10 30 10 42 0))
      ⟨.EVENT_LOW_ENERGY_UPDATE, 0⟩ ⟨false, false⟩
      ⟨sample_date_time 4 10 30 10 41 0, true, false⟩ ⟨false, []⟩ (by decide)).1.2 (by decide),
   (signal_indicator_after_time_event (sample_env (sample_date_time 4 10 30 10 42 0))
      ⟨.EVENT_TICK, 0⟩ ⟨false, false⟩
      ⟨sample_date_time 4 10 30 10 41 59, true, false⟩ ⟨false, []⟩ (by decide)).2.2 (by decide)⟩

/-- C10: the loop returns true for Activate, Tick and low-energy events on every
branch; for an event kind other than these three, ALARM_BUTTON_UP and
ALARM_LONG_UP, it returns the result of the default loop handler of the host on the
same event and settings, with the face state unchanged and the host exactly as the
handler left it (no command of the face itself). -/
theorem loop_result (env : Env) (event : movement_event_t)
    (settings : movement_settings_t) (state : simple_clock_no_secs_state_t) (host : Host) :
    match event.event_type with
    | .EVENT_ACTIVATE | .EVENT_TICK | .EVENT_LOW_ENERGY_UPDATE =>
        (simple_clock_no_secs_face_loop env event settings state host).1 = true
    | .EVENT_ALARM_BUTTON_UP | .EVENT_ALARM_LONG_UP => True
    | .EVENT_OTHER _ =>
        simple_clock_no_secs_face_loop env event settings state host
          = ((env.movement_default_loop_handler event settings host).1, state,
             (env.movement_default_loop_handler event settings host).2) := by
  have htime : (event.event_type = .EVENT_ACTIVATE ∨ event.event_type = .EVENT_TICK
      ∨ event.event_type = .EVENT_LOW_ENERGY_UPDATE) →
      (simple_clock_no_secs_face_loop env event settings state host).1 = true := by
    intro hev
    by_cases hfast : env.watch_rtc_get_date_time.reg >>> 6 = state.previous_date_time >>> 6
        ∧ event.event_type ≠ .EVENT_LOW_ENERGY_UPDATE ∧ state.show_seconds = true
    · rw [loop_seconds_only env event settings state host hev hfast]
    · by_cases h12 : env.watch_rtc_get_date_time.reg >>> 12 = state.previous_date_time >>> 12
      · rw [loop_minute_redraw env event settings state host hev h12 hfast]
      · rw [loop_full_redraw env event settings state host hev h12]
  cases h : event.event_type with
  | EVENT_ACTIVATE => exact htime (Or.inl h)
  | EVENT_TICK => exact htime (Or.inr (Or.inl h))
  | EVENT_LOW_ENERGY_UPDATE => exact htime (Or.inr (Or.inr h))
  | EVENT_ALARM_BUTTON_UP => trivial
  | EVENT_ALARM_LONG_UP => trivial
  | EVENT_OTHER code => simp [simple_clock_no_secs_face_loop, h]

/-- C11: called with a context slot that already holds a state, setup leaves the
slot and every field of that state unchanged; called with a null slot it stores a
state in it. -/
theorem setup_keeps_existing_state (settings : movement_settings_t) (watch_face_index : Nat) :
    (∀ state : simple_clock_no_secs_state_t,
      simple_clock_no_secs_face_setup settings watch_face_index (some state) = some state)
    ∧ simple_clock_no_secs_face_setup settings watch_face_index none ≠ none := by
  constructor
  · intro state
    rfl
  · simp [simple_clock_no_secs_face_setup]

/-- C12, as stated, fails: the state created on a null slot has `show_seconds`
true, not false. -/
theorem setup_initial_state_shows_seconds :
    simple_clock_no_secs_face_setup ⟨false, false⟩ 0 none
        ≠ some { previous_date_time := 0, show_seconds := false, alarm_enabled := false }
    ∧ (simple_clock_no_secs_face_setup ⟨false, false⟩ 0 none).map (fun s => s.show_seconds)
        = some true := by
  decide

/-- C12, amended: the state created on a null slot has `previous_date_time` 0,
`show_seconds` true and `alarm_enabled` false. -/
theorem setup_initial_state (settings : movement_settings_t) (watch_face_index : Nat) :
    simple_clock_no_secs_face_setup settings watch_face_index none
      = some { previous_date_time := 0, show_seconds := true, alarm_enabled := false } := by
  rfl

/-- C13: on an Activate, Tick or low-energy event whose current packed timestamp
agrees with the previous one above the minute field, when the event is a low-energy
update or seconds are hidden, the only character write is one string at position
6: the zero-padded two-digit minute followed by two blanks, four characters. This
covers the case where only the seconds field, or nothing, changed. -/
theorem minute_redraw_blank_seconds (env : Env) (event : movement_event_t)
    (settings : movement_settings_t) (state : simple_clock_no_secs_state_t) (host : Host)
    (hev : event.event_type = .EVENT_ACTIVATE ∨ event.event_type = .EVENT_TICK
      ∨ event.event_type = .EVENT_LOW_ENERGY_UPDATE)
    (hsame : env.watch_rtc_get_date_time.reg >>> 12 = state.previous_date_time >>> 12)
    (hblank : event.event_type = .EVENT_LOW_ENERGY_UPDATE ∨ state.show_seconds = false) :
    text_writes host (simple_clock_no_secs_face_loop env event settings state host).2.2
      = [Cmd.watch_display_string (fmt_width2 '0' env.watch_rtc_get_date_time.minute ++ "  ") 6]
    ∧ (fmt_width2 '0' env.watch_rtc_get_date_time.minute ++ "  ").length = 4 := by
  have hslow : ¬ (env.watch_rtc_get_date_time.reg >>> 6 = state.previous_date_time >>> 6
      ∧ event.event_type ≠ .EVENT_LOW_ENERGY_UPDATE ∧ state.show_seconds = true) := by
    rintro ⟨_, hne, hshow⟩
    rcases hblank with h | h
    · exact hne h
    · rw [h] at hshow; exact Bool.false_ne_true hshow
  constructor
  · rw [loop_minute_redraw env event settings state host hev hsame hslow]
    simp only [List.append_assoc, text_writes, issued_log, if_pos hblank]
    rcases hev with h | h | h <;>
      simp [h, List.filter_append, Cmd.is_text, apply_ite (List.filter _)]
  · have hm := minute_lt env.watch_rtc_get_date_time
    have l := fmt_width2_zero_length env.watch_rtc_get_date_time.minute (by omega)
    simp only [String.length_append, l]
    rfl

/-- C13 at concrete inputs: with seconds hidden, a Tick at 10:42:00 after 10:41:59
writes "42  " at 6; a low-energy update where only the second changed writes
"41  " at 6. -/
theorem minute_redraw_blank_seconds_witness :
    text_writes ⟨false, []⟩
        (simple_clock_no_secs_face_loop (sample_env (sample_date_time 4 10 30 10 42 0))
          ⟨.EVENT_TICK, 0⟩ ⟨false, false⟩
          ⟨sample_date_time 4 10 30 10 41 59, false, false⟩ ⟨false, []⟩).2.2
      = [Cmd.watch_display_string "42  " 6]
    ∧ text_writes ⟨false, []⟩
        (simple_clock_no_secs_face_loop (sample_env (sample_date_time 4 10 30 10 41 27))
          ⟨.EVENT_LOW_ENERGY_UPDATE, 0⟩ ⟨false, false⟩
          ⟨sample_date_time 4 10 30 10 41 26, true, false⟩ ⟨false, []⟩).2.2
      = [Cmd.watch_display_string "41  " 6] :=
  ⟨(minute_redraw_blank_seconds (sample_env (sample_date_time 4 10 30 10 42 0))
      ⟨.EVENT_TICK, 0⟩ ⟨false, false⟩ ⟨sample_date_time 4 10 30 10 41 59, false, false⟩
      ⟨false, []⟩ (by decide) (by decide) (by decide)).1,
   (minute_redraw_blank_seconds (sample_env (sample_date_time 4 10 30 10 41 27))
      ⟨.EVENT_LOW_ENERGY_UPDATE, 0⟩ ⟨false, false⟩
      ⟨sample_date_time 4 10 30 10 41 26, true, false⟩
      ⟨false, []⟩ (by decide) (by decide) (by decide)).1⟩

/-- C14: on a Tick or Activate event with seconds shown, when the current packed
timestamp agrees with the previous one above the minute field but not above the
seconds field, the only character write is one string at position 6: the
zero-padded two-digit minute followed by the zero-padded two-digit second, four
characters; nothing is written at positions 0 to 5. -/
theorem minute_rollover_redraw (env : Env) (event : movement_event_t)
    (settings : movement_settings_t) (state : simple_clock_no_secs_state_t) (host : Host)
    (hev : event.event_type = .EVENT_TICK ∨ event.event_type = .EVENT_ACTIVATE)
    (hshow : state.show_seconds = true)
    (hsame : env.watch_rtc_get_date_time.reg >>> 12 = state.previous_date_time >>> 12)
    (hdiff : env.watch_rtc_get_date_time.reg >>> 6 ≠ state.previous_date_time >>> 6) :
    text_writes host (simple_clock_no_secs_face_loop env event settings state host).2.2
      = [Cmd.watch_display_string
          (fmt_width2 '0' env.watch_rtc_get_date_time.minute
            ++ fmt_width2 '0' env.watch_rtc_get_date_time.second) 6]
    ∧ (fmt_width2 '0' env.watch_rtc_get_date_time.minute
        ++ fmt_width2 '0' env.watch_rtc_get_date_time.second).length = 4 := by
  have hev3 : event.event_type = .EVENT_ACTIVATE ∨ event.event_type = .EVENT_TICK
      ∨ event.event_type = .EVENT_LOW_ENERGY_UPDATE := by
    rcases hev with h | h
    · exact Or.inr (Or.inl h)
    · exact Or.inl h
  have hslow : ¬ (env.watch_rtc_get_date_time.reg >>> 6 = state.previous_date_time >>> 6
      ∧ event.event_type ≠ .EVENT_LOW_ENERGY_UPDATE ∧ state.show_seconds = true) :=
    fun h => hdiff h.1
  constructor
  · rw [loop_minute_redraw env event settings state host hev3 hsame hslow]
    simp only [List.append_assoc, text_writes, issued_log]
    rcases hev with h | h <;>
      simp [h, hshow, List.filter_append, Cmd.is_text, apply_ite (List.filter _)]
  · have hm := minute_lt env.watch_rtc_get_date_time
    have hs := second_lt env.watch_rtc_get_date_time
    have l1 := fmt_width2_zero_length env.watch_rtc_get_date_time.minute (by omega)
    have l2 := fmt_width2_zero_length env.watch_rtc_get_date_time.second (by omega)
    simp only [String.length_append, l1, l2]

/-- C14 at a concrete input: a Tick at 10:42:00 after 10:41:59 writes "4200" at 6. -/
theorem minute_rollover_redraw_witness :
    text_writes ⟨false, []⟩
        (simple_clock_no_secs_face_loop (sample_env (sample_date_time 4 10 30 10 42 0))
          ⟨.EVENT_TICK, 0⟩ ⟨false, false⟩
          ⟨sample_date_time 4 10 30 10 41 59, true, false⟩ ⟨false, []⟩).2.2
      = [Cmd.watch_display_string "4200" 6] :=
  (minute_rollover_redraw (sample_env (sample_date_time 4 10 30 10 42 0))
    ⟨.EVENT_TICK, 0⟩ ⟨false, false⟩ ⟨sample_date_time 4 10 30 10 41 59, true, false⟩
    ⟨false, []⟩ (by decide) (by decide) (by decide) (by decide)).1

/-- C15: when the weekday abbreviation has two characters, every string the loop
formats and writes ends exactly at display position 9: its length is 10 minus the
write position (10 at position 0, 4 at position 6, 2 at position 8), so with its
terminator it fits the 11-byte buffer. This holds for each event kind the face
handles itself; for any other kind the face formats nothing and the host is
exactly as the default handler left it. -/
theorem formatted_strings_fit (env : Env) (event : movement_event_t)
    (settings : movement_settings_t) (state : simple_clock_no_secs_state_t) (host : Host)
    (hwd : ∀ d, (env.watch_utility_get_weekday d).length = 2) :
    match event.event_type with
    | .EVENT_OTHER _ =>
        (simple_clock_no_secs_face_loop env event settings state host).2.2
          = (env.movement_default_loop_handler event settings host).2
    | _ =>
        ∀ s pos, Cmd.watch_display_string s pos
            ∈ issued host (simple_clock_no_secs_face_loop env event settings state host).2.2 →
          s.length = 10 - pos ∧ (pos = 0 ∨ pos = 6 ∨ pos = 8) ∧ s.length + 1 ≤ 11 := by
  have htime : (event.event_type = .EVENT_ACTIVATE ∨ event.event_type = .EVENT_TICK
      ∨ event.event_type = .EVENT_LOW_ENERGY_UPDATE) →
      ∀ s pos, Cmd.watch_display_string s pos
            ∈ issued host (simple_clock_no_secs_face_loop env event settings state host).2.2 →
          s.length = 10 - pos ∧ (pos = 0 ∨ pos = 6 ∨ pos = 8) ∧ s.length + 1 ≤ 11 := by
    intro hev s pos hmem
    rw [mem_issued_string] at hmem
    by_cases hfast : env.watch_rtc_get_date_time.reg >>> 6 = state.previous_date_time >>> 6
        ∧ event.event_type ≠ .EVENT_LOW_ENERGY_UPDATE ∧ state.show_seconds = true
    · rw [text_writes_seconds_only env event settings state host hev hfast] at hmem
      simp at hmem
    · by_cases h12 : env.watch_rtc_get_date_time.reg >>> 12 = state.previous_date_time >>> 12
      · rw [text_writes_minute_redraw env event settings state host hev h12 hfast] at hmem
        simp only [List.mem_singleton, Cmd.watch_display_string.injEq] at hmem
        obtain ⟨hs, hp⟩ := hmem
        have hm := minute_lt env.watch_rtc_get_date_time
        have l1 := fmt_width2_zero_length env.watch_rtc_get_date_time.minute (by omega)
        have l2 := seconds_field_length env
          (event.event_type = .EVENT_LOW_ENERGY_UPDATE ∨ state.show_seconds = false)
        have hl : s.length = 4 := by rw [hs, String.length_append, l1, l2]
        subst hp
        simp [hl]
      · rw [text_writes_full_redraw env event settings state host hev h12] at hmem
        simp only [List.mem_singleton, Cmd.watch_display_string.injEq] at hmem
        obtain ⟨hs, hp⟩ := hmem
        have l1 := head_of_full_redraw_length env settings hwd
        have l2 := seconds_field_length env
          (event.event_type = .EVENT_LOW_ENERGY_UPDATE ∨ state.show_seconds = false)
        have hl : s.length = 10 := by rw [hs, String.length_append, l1, l2]
        subst hp
        simp [hl]
  cases h : event.event_type with
  | EVENT_ACTIVATE => exact htime (Or.inl h)
  | EVENT_TICK => exact htime (Or.inr (Or.inl h))
  | EVENT_LOW_ENERGY_UPDATE => exact htime (Or.inr (Or.inr h))
  | EVENT_ALARM_BUTTON_UP =>
    intro s pos hmem
    rw [loop_short_press env event settings state host h] at hmem
    simp only [issued_log, List.mem_singleton, Cmd.watch_display_string.injEq] at hmem
    obtain ⟨hs, hp⟩ := hmem
    have hsec := second_lt env.watch_rtc_get_date_time
    have hl : s.length = 2 := by
      rw [hs]
      split_ifs
      · exact fmt_width2_zero_length _ (by omega)
      · rfl
    subst hp
    simp [hl]
  | EVENT_ALARM_LONG_UP =>
    intro s pos hmem
    rw [loop_long_press env event settings state host h] at hmem
    simp [issued_log] at hmem
  | EVENT_OTHER code => simp [simple_clock_no_secs_face_loop, h]

/-- C15 at a concrete input: the full redraw at 13:05:07 formats 10 characters. -/
theorem formatted_strings_fit_witness :
    Cmd.watch_display_string "MO30 10507" 0
        ∈ issued ⟨false, []⟩
          (simple_clock_no_secs_face_loop (sample_env (sample_date_time 4 10 30 13 5 7))
            ⟨.EVENT_TICK, 0⟩ ⟨false, false⟩
            ⟨sample_date_time 4 10 30 12 59 59, true, false⟩ ⟨false, []⟩).2.2
    ∧ "MO30 10507".length = 10 - 0 :=
  ⟨by decide,
   (formatted_strings_fit (sample_env (sample_date_time 4 10 30 13 5 7))
      ⟨.EVENT_TICK, 0⟩ ⟨false, false⟩ ⟨sample_date_time 4 10 30 12 59 59, true, false⟩
      ⟨false, []⟩ (fun _ => rfl) "MO30 10507" 0 (by decide)).1⟩

/-- C16: when the weekday abbreviation has two characters and either seconds are
hidden after the event or the event is a low-energy update, no single character is
written at the seconds positions and every string written splits into a head
ending at position 7 followed by two blanks, so positions 8 and 9 receive blanks
and never a digit. This holds for each event kind the face handles itself; for any
other kind the face writes nothing and the host is exactly as the default handler
left it. -/
theorem hidden_seconds_stay_blank (env : Env) (event : movement_event_t)
    (settings : movement_settings_t) (state : simple_clock_no_secs_state_t) (host : Host)
    (hwd : ∀ d, (env.watch_utility_get_weekday d).length = 2)
    (hhidden : (simple_clock_no_secs_face_loop env event settings state host).2.1.show_seconds
        = false ∨ event.event_type = .EVENT_LOW_ENERGY_UPDATE) :
    match event.event_type with
    | .EVENT_OTHER _ =>
        (simple_clock_no_secs_face_loop env event settings state host).2.2
          = (env.movement_default_loop_handler event settings host).2
    | _ =>
        (∀ c pos, Cmd.watch_display_character_lp_seconds c pos
            ∉ issued host (simple_clock_no_secs_face_loop env event settings state host).2.2)
        ∧ (∀ s pos, Cmd.watch_display_string s pos
            ∈ issued host (simple_clock_no_secs_face_loop env event settings state host).2.2 →
          ∃ head, s = head ++ "  " ∧ pos + head.length = 8) := by
  have htime : (event.event_type = .EVENT_ACTIVATE ∨ event.event_type = .EVENT_TICK
      ∨ event.event_type = .EVENT_LOW_ENERGY_UPDATE) →
      (∀ c pos, Cmd.watch_display_character_lp_seconds c pos
            ∉ issued host (simple_clock_no_secs_face_loop env event settings state host).2.2)
        ∧ (∀ s pos, Cmd.watch_display_string s pos
            ∈ issued host (simple_clock_no_secs_face_loop env event settings state host).2.2 →
          ∃ head, s = head ++ "  " ∧ pos + head.length = 8) := by
    intro hev
    by_cases hfast : env.watch_rtc_get_date_time.reg >>> 6 = state.previous_date_time >>> 6
        ∧ event.event_type ≠ .EVENT_LOW_ENERGY_UPDATE ∧ state.show_seconds = true
    · exfalso
      rw [loop_seconds_only env event settings state host hev hfast] at hhidden
      obtain ⟨_, hne, hshow⟩ := hfast
      rcases hhidden with h | h
      · simp only at h
        rw [h] at hshow
        exact Bool.false_ne_true hshow
      · exact hne h
    · have hblank : event.event_type = .EVENT_LOW_ENERGY_UPDATE ∨ state.show_seconds = false := by
        by_cases h12 : env.watch_rtc_get_date_time.reg >>> 12 = state.previous_date_time >>> 12
        · rw [loop_minute_redraw env event settings state host hev h12 hfast] at hhidden
          exact hhidden.symm
        · rw [loop_full_redraw env event settings state host hev h12] at hhidden
          exact hhidden.symm
      by_cases h12 : env.watch_rtc_get_date_time.reg >>> 12 = state.previous_date_time >>> 12
      · constructor
        · intro c pos hmem
          rw [mem_issued_character,
            text_writes_minute_redraw env event settings state host hev h12 hfast] at hmem
          simp at hmem
        · intro s pos hmem
          rw [mem_issued_string,
            text_writes_minute_redraw env event settings state host hev h12 hfast] at hmem
          simp only [List.mem_singleton, Cmd.watch_display_string.injEq, if_pos hblank] at hmem
          obtain ⟨hs, hp⟩ := hmem
          have hm := minute_lt env.watch_rtc_get_date_time
          have l1 := fmt_width2_zero_length env.watch_rtc_get_date_time.minute (by omega)
          exact ⟨_, hs, by rw [hp, l1]⟩
      · constructor
        · intro c pos hmem
          rw [mem_issued_character,
            text_writes_full_redraw env event settings state host hev h12] at hmem
          simp at hmem
        · intro s pos hmem
          rw [mem_issued_string,
            text_writes_full_redraw env event settings state host hev h12] at hmem
          simp only [List.mem_singleton, Cmd.watch_display_string.injEq, if_pos hblank] at hmem
          obtain ⟨hs, hp⟩ := hmem
          have l1 := head_of_full_redraw_length env settings hwd
          exact ⟨_, hs, by rw [hp, l1]⟩
  cases h : event.event_type with
  | EVENT_ACTIVATE => exact htime (Or.inl h)
  | EVENT_TICK => exact htime (Or.inr (Or.inl h))
  | EVENT_LOW_ENERGY_UPDATE => exact htime (Or.inr (Or.inr h))
  | EVENT_ALARM_BUTTON_UP =>
    rw [loop_short_press env event settings state host h] at hhidden ⊢
    simp only [h, reduceCtorEq, or_false] at hhidden
    simp only [issued_log, List.mem_singleton, Cmd.watch_display_string.injEq, hhidden,
      Bool.false_eq_true, if_false]
    constructor
    · intro c pos hmem
      simp at hmem
    · rintro s pos ⟨hs, hp⟩
      exact ⟨"", by rw [hs]; rfl, by rw [hp]; rfl⟩
  | EVENT_ALARM_LONG_UP =>
    rw [loop_long_press env event settings state host h]
    simp [issued_log]
  | EVENT_OTHER code => simp [simple_clock_no_secs_face_loop, h]

/-- C16 at concrete inputs: with seconds hidden a Tick at an hour rollover writes
blanks at positions 8 and 9, and a short press that hides the seconds blanks them. -/
theorem hidden_seconds_stay_blank_witness :
    (Cmd.watch_display_string "MO30 105  " 0
        ∈ issued ⟨false, []⟩
          (simple_clock_no_secs_face_loop (sample_env (sample_date_time 4 10 30 13 5 7))
            ⟨.EVENT_TICK, 0⟩ ⟨false, false⟩
            ⟨sample_date_time 4 10 30 12 59 59, false, false⟩ ⟨false, []⟩).2.2
      ∧ ∃ head, "MO30 105  " = head ++ "  " ∧ 0 + head.length = 8)
    ∧ (Cmd.watch_display_string "  " 8
        ∈ issued ⟨false, []⟩
          (simple_clock_no_secs_face_loop (sample_env (sample_date_time 4 10 30 13 5 7))
            ⟨.EVENT_ALARM_BUTTON_UP, 0⟩ ⟨false, false⟩
            ⟨sample_date_time 4 10 30 12 59 59, true, false⟩ ⟨false, []⟩).2.2
      ∧ ∃ head, "  " = head ++ "  " ∧ 8 + head.length = 8) :=
  ⟨⟨by decide,
    (hidden_seconds_stay_blank (sample_env (sample_date_time 4 10 30 13 5 7))
      ⟨.EVENT_TICK, 0⟩ ⟨false, false⟩ ⟨sample_date_time 4 10 30 12 59 59, false, false⟩
      ⟨false, []⟩ (fun _ => rfl) (Or.inl (by decide))).2 "MO30 105  " 0 (by decide)⟩,
   ⟨by decide,
    (hidden_seconds_stay_blank (sample_env (sample_date_time 4 10 30 13 5 7))
      ⟨.EVENT_ALARM_BUTTON_UP, 0⟩ ⟨false, false⟩
      ⟨sample_date_time 4 10 30 12 59 59, true, false⟩
      ⟨false, []⟩ (fun _ => rfl) (Or.inl (by decide))).2 "  " 8 (by decide)⟩⟩

/-- C17: after an Activate, Tick or low-energy event, on every branch, the state
holds the packed timestamp just read as `previous_date_time` and `show_seconds` is
as before; after any other event `previous_date_time` is as before. -/
theorem previous_date_time_tracking (env : Env) (event : movement_event_t)
    (settings : movement_settings_t) (state : simple_clock_no_secs_state_t) (host : Host) :
    match event.event_type with
    | .EVENT_ACTIVATE | .EVENT_TICK | .EVENT_LOW_ENERGY_UPDATE =>
        (simple_clock_no_secs_face_loop env event settings state host).2.1.previous_date_time
          = env.watch_rtc_get_date_time.reg
        ∧ (simple_clock_no_secs_face_loop env event settings state host).2.1.show_seconds
          = state.show_seconds
    | _ =>
        (simple_clock_no_secs_face_loop env event settings state host).2.1.previous_date_time
          = state.previous_date_time := by
  have htime : (event.event_type = .EVENT_ACTIVATE ∨ event.event_type = .EVENT_TICK
      ∨ event.event_type = .EVENT_LOW_ENERGY_UPDATE) →
      (simple_clock_no_secs_face_loop env event settings state host).2.1.previous_date_time
          = env.watch_rtc_get_date_time.reg
        ∧ (simple_clock_no_secs_face_loop env event settings state host).2.1.show_seconds
          = state.show_seconds := by
    intro hev
    by_cases hfast : env.watch_rtc_get_date_time.reg >>> 6 = state.previous_date_time >>> 6
        ∧ event.event_type ≠ .EVENT_LOW_ENERGY_UPDATE ∧ state.show_seconds = true
    · rw [loop_seconds_only env event settings state host hev hfast]
      exact ⟨rfl, rfl⟩
    · by_cases h12 : env.watch_rtc_get_date_time.reg >>> 12 = state.previous_date_time >>> 12
      · rw [loop_minute_redraw env event settings state host hev h12 hfast]
        exact ⟨rfl, rfl⟩
      · rw [loop_full_redraw env event settings state host hev h12]
        exact ⟨rfl, rfl⟩
  cases h : event.event_type with
  | EVENT_ACTIVATE => exact htime (Or.inl h)
  | EVENT_TICK => exact htime (Or.inr (Or.inl h))
  | EVENT_LOW_ENERGY_UPDATE => exact htime (Or.inr (Or.inr h))
  | EVENT_ALARM_BUTTON_UP => rw [loop_short_press env event settings state host h]
  | EVENT_ALARM_LONG_UP => rw [loop_long_press env event settings state host h]
  | EVENT_OTHER code => simp [simple_clock_no_secs_face_loop, h]

end SimpleClockNoSecs
